import Mathlib

/-!
Verification of the soil trafficability & compaction advisor
(`streamlit_app.py`).

The rule-evaluation core is embedded shallowly:
* Python floats are modelled as rationals (`ℚ`); every numeric comparison
  in the source is against a short decimal literal, which is exact in `ℚ`.
* `None` (an absent measurement) becomes `Option.none`.
* Python f-string number formatting `{x:.Nf}` is modelled by `fmtFixed N`,
  which rounds to `N` decimal places (ties to even, as Python rounds) and
  renders sign, digits and decimal point.
* The `try: float(x) except: None` parser is modelled by a total decimal
  literal parser `pyFloat` returning `Except Unit ℚ` (IEEE `inf`/`nan`
  literals are outside the rational model), wrapped by `parse_float`.
* Python's substring test `needle in hay` is `strContains`, and
  `str.lower()` is `pyLower` (ASCII case folding, which agrees with Python
  on the ASCII queries the app handles).
-/

/-- ASCII lower-casing of one character, as Python `str.lower` acts on
ASCII letters. -/
def asciiLower (c : Char) : Char :=
  if 'A' ≤ c ∧ c ≤ 'Z' then Char.ofNat (c.toNat + 32) else c

/-- Model of Python `str.lower()` (ASCII fragment). -/
def pyLower (s : String) : String := String.mk (s.data.map asciiLower)

/-- Model of Python `needle in hay` for strings: contiguous substring. -/
def strContains (hay needle : String) : Bool := decide (needle.data <:+: hay.data)

/-- Decimal rendering of a natural number. -/
def natStr (n : ℕ) : String :=
  if n = 0 then "0" else String.mk ((Nat.digits 10 n).reverse.map Nat.digitChar)

/-- Floor of a rational, computably (`q.den` is positive, so flooring
division of the numerator by the denominator is the floor). -/
def ratFloor (q : ℚ) : ℤ := Int.fdiv q.num q.den

/-- Round to nearest integer, ties to even: the rounding Python applies
when formatting with `{x:.Nf}`. -/
def pyRound (q : ℚ) : ℤ :=
  let f := ratFloor q
  let frac : ℚ := q - (f : ℚ)
  if frac < 1 / 2 then f
  else if 1 / 2 < frac then f + 1
  else if f % 2 = 0 then f else f + 1

/-- Model of Python `f-string` fixed-point formatting `{q:.prec f}`:
round to `prec` decimal places and render with exactly `prec` digits
after the point (no point when `prec = 0`). -/
def fmtFixed (prec : ℕ) (q : ℚ) : String :=
  let n : ℤ := pyRound (q * (10 : ℚ) ^ prec)
  let sign := if n < 0 then "-" else ""
  let m : ℕ := n.natAbs
  if prec = 0 then sign ++ natStr m
  else
    sign ++ natStr (m / 10 ^ prec) ++ "." ++
      String.mk (List.replicate (prec - (natStr (m % 10 ^ prec)).length) '0') ++
      natStr (m % 10 ^ prec)

/-- Numeric value of a list of decimal digit characters (most significant
first), as accumulated by a left fold. -/
def digitsToNat (cs : List Char) : ℕ := cs.foldl (fun a c => 10 * a + (c.toNat - 48)) 0

/-- Exponent part of a Python float literal: optional sign then at least
one digit, consuming the whole remaining input. -/
def parseExp (cs : List Char) : Except Unit ℤ :=
  let p : ℤ × List Char :=
    match cs with
    | '+' :: r => (1, r)
    | '-' :: r => (-1, r)
    | _ => (1, cs)
  let ds := p.2.takeWhile Char.isDigit
  if ds ≠ [] ∧ p.2.dropWhile Char.isDigit = [] then
    Except.ok (p.1 * (digitsToNat ds : ℤ))
  else Except.error ()

/-- Optional exponent suffix applied to an already-parsed mantissa. -/
def withExp (r2 : List Char) (mant : ℚ) : Except Unit ℚ :=
  match r2 with
  | [] => Except.ok mant
  | 'e' :: rest => (parseExp rest).map fun e => mant * (10 : ℚ) ^ e
  | 'E' :: rest => (parseExp rest).map fun e => mant * (10 : ℚ) ^ e
  | _ => Except.error ()

/-- Unsigned Python float literal: digits, optional `.` with further
digits (at least one digit in the mantissa overall), optional exponent. -/
def pyFloatCore (cs : List Char) : Except Unit ℚ :=
  let ip := cs.takeWhile Char.isDigit
  let r1 := cs.dropWhile Char.isDigit
  match r1 with
  | '.' :: rest =>
    let fp := rest.takeWhile Char.isDigit
    let r2 := rest.dropWhile Char.isDigit
    if ip = [] ∧ fp = [] then Except.error ()
    else withExp r2 ((digitsToNat ip : ℚ) + (digitsToNat fp : ℚ) / (10 : ℚ) ^ fp.length)
  | _ =>
    if ip = [] then Except.error ()
    else withExp r1 ((digitsToNat ip : ℚ))

/-- Model of Python `float(x)` on text: strip surrounding whitespace,
optional sign, then an unsigned decimal literal.  `Except.error ()` is the
`ValueError` Python raises on unconvertible text. -/
def pyFloat (s : String) : Except Unit ℚ :=
  let cs := ((s.data.dropWhile Char.isWhitespace).reverse.dropWhile
    Char.isWhitespace).reverse
  match cs with
  | '+' :: rest => pyFloatCore rest
  | '-' :: rest => (pyFloatCore rest).map Neg.neg
  | _ => pyFloatCore cs

/-- `parse_float` from the source: `try: return float(x) except: return None`. -/
def parse_float (x : String) : Option ℚ :=
  match pyFloat x with
  | Except.ok v => some v
  | Except.error _ => none

/-- `interpret_bulk_density` from the source. -/
def interpret_bulk_density (bd : Option ℚ) : String × String :=
  match bd with
  | none => ("Unknown", "No bulk density provided.")
  | some bd =>
    if bd > 1.43 then
      ("High", "BD = " ++ fmtFixed 2 bd ++
        " Mg m⁻³ — exceeds critical ~1.43 (loamy soils): high compaction risk.")
    else if bd > 1.30 then
      ("Moderate", "BD = " ++ fmtFixed 2 bd ++
        " Mg m⁻³ (1.30–1.43): moderate compaction risk; watch root restriction.")
    else
      ("Low", "BD = " ++ fmtFixed 2 bd ++ " Mg m⁻³ — within normal range (1.0–1.4).")

/-- `interpret_cone_index` from the source. -/
def interpret_cone_index (ci : Option ℚ) : String × String :=
  match ci with
  | none => ("Unknown", "No cone index provided.")
  | some ci =>
    if ci ≥ 3.0 then
      ("Very High", "CI = " ++ fmtFixed 2 ci ++
        " MPa — near-zero root growth (severe mechanical impedance).")
    else if ci ≥ 1.5 then
      ("High", "CI = " ++ fmtFixed 2 ci ++ " MPa — ~50% root growth reduction expected.")
    else if ci ≥ 0.8 then
      ("Moderate", "CI = " ++ fmtFixed 2 ci ++
        " MPa — approaching common trafficability limits (0.8–1.43 MPa).")
    else
      ("Low", "CI = " ++ fmtFixed 2 ci ++ " MPa — generally permissive for root penetration.")

/-- `interpret_moisture` from the source: numeric SMD is preferred, the
categorical input is the fallback. -/
def interpret_moisture (smd : Option ℚ) (moisture_cat : String) : String × String :=
  match smd with
  | some smd =>
    if smd ≥ 10 then
      ("Favourable", "SMD = +" ++ fmtFixed 1 smd ++
        " mm: drier conditions favourable for traffic.")
    else if smd ≥ 0 then
      ("Marginal", "SMD = +" ++ fmtFixed 1 smd ++ " mm: marginal trafficability.")
    else
      ("Poor", "SMD = " ++ fmtFixed 1 smd ++
        " mm: soil likely wet or near field capacity — high compaction risk.")
  | none =>
    if moisture_cat = "dry" ∨ moisture_cat = "moderate" then
      ("Favourable", "Moisture: " ++ moisture_cat ++ " — relatively safe for operations.")
    else if moisture_cat = "near_field_capacity" ∨ moisture_cat = "wet" then
      ("Poor", "Moisture: " ++ moisture_cat ++ " — avoid traffic; high compaction risk.")
    else
      ("Unknown", "No moisture data provided.")

/-- The tire-pressure reason string appended by `interpret_tire_and_load`. -/
def tireReasonStr (tp : ℚ) : String :=
  "Tire pressure " ++ fmtFixed 0 tp ++ " kPa > 50 kPa (increases contact stress)."

/-- The wheel-load reason string appended by `interpret_tire_and_load`. -/
def loadReasonStr (wl : ℚ) : String :=
  "Wheel load " ++ fmtFixed 0 wl ++ " kg ≥ 5000 kg (increases subsoil compaction risk)."

/-- The list of triggered reason strings built by `interpret_tire_and_load`. -/
def tire_reasons (tp_kpa wheel_load_kg : Option ℚ) : List String :=
  (match tp_kpa with
   | some tp => if tp > 50 then [tireReasonStr tp] else []
   | none => []) ++
  (match wheel_load_kg with
   | some wl => if wl ≥ 5000 then [loadReasonStr wl] else []
   | none => [])

/-- `interpret_tire_and_load` from the source: the joint evaluator.  The
severity decision scans the collected reason strings for the substring
`≥ 5000`, which only the wheel-load reason contains. -/
def interpret_tire_and_load (tp_kpa wheel_load_kg : Option ℚ) : String × String :=
  let reasons := tire_reasons tp_kpa wheel_load_kg
  if reasons = [] then
    ("Low", "Tire pressure and wheel load within low-risk bounds.")
  else if reasons.any (fun r => strContains r "≥ 5000") then
    ("High", String.intercalate " " reasons)
  else
    ("Moderate", String.intercalate " " reasons)

/-- `interpret_rut_depth` from the source. -/
def interpret_rut_depth (rut_cm : Option ℚ) : String × String :=
  match rut_cm with
  | none => ("Unknown", "No rut depth provided.")
  | some rut =>
    if rut > 10 then
      ("High", "Rut depth " ++ fmtFixed 1 rut ++ " cm > 10 cm — severe surface disturbance.")
    else if rut > 3 then
      ("Moderate", "Rut depth " ++ fmtFixed 1 rut ++ " cm — noticeable surface deformation.")
    else
      ("Low", "Rut depth " ++ fmtFixed 1 rut ++ " cm — negligible.")

/-- The scoring dictionary inside `aggregate_risk`, with the `.get(l, 0)`
default for labels outside the table. -/
def score_map (l : String) : ℕ :=
  if l = "Low" then 0
  else if l = "Favourable" then 0
  else if l = "Moderate" then 1
  else if l = "Marginal" then 1
  else if l = "High" then 2
  else if l = "Very High" then 3
  else if l = "Poor" then 2
  else if l = "Unknown" then 0
  else 0

/-- `aggregate_risk` from the source. -/
def aggregate_risk (levels : List String) : String :=
  let total := (levels.map score_map).sum
  if total ≥ 5 then "High"
  else if total ≥ 2 then "Moderate"
  else "Low"

/-- `recommendations` from the source. -/
def recommendations (overall_level : String) : List String :=
  if overall_level = "High" then
    ["Avoid field traffic until soil dries (aim SMD ≥ +10 mm) or BD/CI improve.",
     "Reduce tire pressure and/or reduce axle/wheel loads; use wide tires or tracks.",
     "Use Controlled Traffic Farming (confine compaction to fixed lanes).",
     "If persistent subsoil compaction is confirmed, consider deep ripping where agronomically appropriate."]
  else if overall_level = "Moderate" then
    ["Lower tire pressures and reduce loads where feasible.",
     "Schedule operations for drier windows; avoid repeated passes.",
     "Monitor BD and CI after operations; adjust tactics accordingly."]
  else
    ["Field conditions acceptable for operations; continue routine monitoring of BD and CI.",
     "Practice best traffic management to avoid long-term compaction (CTF, wide tires)."]

/-- The five indicator categories the submitted-form pipeline passes to
`aggregate_risk`, in source order. -/
def assessment_levels (bd ci smd tp wl rut : Option ℚ) (moist_cat : String) : List String :=
  [(interpret_bulk_density bd).1,
   (interpret_cone_index ci).1,
   (interpret_moisture smd moist_cat).1,
   (interpret_tire_and_load tp wl).1,
   (interpret_rut_depth rut).1]

/-- The fixed paragraph for the trafficability keyword. -/
def qaTrafficability : String :=
  "Trafficability: capacity of land to support vehicle operations without causing significant soil degradation (compaction, rutting). Influenced by moisture, texture, and load."

/-- The fixed paragraph for the compaction keyword. -/
def qaCompaction : String :=
  "Soil compaction: increase in bulk density and soil strength caused by applied stresses, reducing porosity, aeration and infiltration. Measured with bulk density and cone index."

/-- The fixed paragraph for the bulk-density keywords. -/
def qaBulkDensity : String :=
  "Bulk density typical normal range: 1.0–1.4 Mg m⁻³. BD > 1.4 Mg m⁻³ indicates compaction; critical ~1.43 Mg m⁻³ for loam."

/-- The fixed paragraph for the cone-index keywords. -/
def qaConeIndex : String :=
  "Cone index (CI): 0.8–1.43 MPa used for critical trafficability; 1.5 MPa ≈ 50% root growth reduction; 3.0 MPa ≈ near-zero root penetration."

/-- The fixed paragraph for the SMD keywords. -/
def qaSmd : String :=
  "SMD: positive values (e.g., +10 mm) indicate drier conditions favourable for traffic. Wet soil at or above field capacity is high risk for compaction."

/-- The fixed fallback answer directing the user to the measurement form. -/
def qaFallback : String :=
  "I provide definitions, thresholds, and deterministic assessments. For an assessment use the measurement form above."

/-- The Q&A branch of the source: lower-case the query, then test the
keyword chains in source order. -/
def qa_answer (query : String) : String :=
  let q := pyLower query
  if strContains q "trafficability" then qaTrafficability
  else if strContains q "compaction" then qaCompaction
  else if strContains q "bulk density" || strContains q "bd" then qaBulkDensity
  else if strContains q "cone index" || strContains q "ci" then qaConeIndex
  else if strContains q "smd" || strContains q "soil moisture deficit" then qaSmd
  else qaFallback

/-- The spec's view of the Q&A feature: an ordered table of
(keyword set, paragraph) pairs. -/
def qaTable : List (List String × String) :=
  [(["trafficability"], qaTrafficability),
   (["compaction"], qaCompaction),
   (["bulk density", "bd"], qaBulkDensity),
   (["cone index", "ci"], qaConeIndex),
   (["smd", "soil moisture deficit"], qaSmd)]

/-- The spec's Q&A contract: the paragraph of the first keyword set with a
keyword occurring in the lower-cased query, the fallback otherwise. -/
def qa_spec (query : String) : String :=
  match qaTable.find? (fun p => p.1.any fun k => strContains (pyLower query) k) with
  | some p => p.2
  | none => qaFallback

/-- C6: the bulk-density evaluator returns `Unknown` when the input is
absent, `High` when `bd > 1.43`, `Moderate` when `1.30 < bd ≤ 1.43` (so
the boundary `1.43` itself is `Moderate`), and `Low` when `bd ≤ 1.30`. -/
theorem interpret_bulk_density_spec :
    (interpret_bulk_density none).1 = "Unknown" ∧
    ∀ bd : ℚ,
      (bd > 1.43 → (interpret_bulk_density (some bd)).1 = "High") ∧
      (1.30 < bd → bd ≤ 1.43 → (interpret_bulk_density (some bd)).1 = "Moderate") ∧
      (bd ≤ 1.30 → (interpret_bulk_density (some bd)).1 = "Low") := by
  refine ⟨rfl, fun bd => ⟨fun h => ?_, fun h1 h2 => ?_, fun h => ?_⟩⟩ <;>
    simp only [interpret_bulk_density] <;> split_ifs <;>
    first
      | rfl
      | (exfalso; linarith)

/-- C6 witness: the boundary value `bd = 1.43` is classified `Moderate`. -/
theorem interpret_bulk_density_spec_witness :
    (interpret_bulk_density (some 1.43)).1 = "Moderate" :=
  (interpret_bulk_density_spec.2 1.43).2.1 (by norm_num) le_rfl

/-- C7: the cone-index evaluator, thresholds checked high-to-low with the
first match winning: absent gives `Unknown`, `ci ≥ 3.0` gives `Very High`,
`1.5 ≤ ci < 3.0` gives `High`, `0.8 ≤ ci < 1.5` gives `Moderate`, and
`ci < 0.8` gives `Low`; each boundary lands in the higher category. -/
theorem interpret_cone_index_spec :
    (interpret_cone_index none).1 = "Unknown" ∧
    ∀ ci : ℚ,
      (ci ≥ 3.0 → (interpret_cone_index (some ci)).1 = "Very High") ∧
      (1.5 ≤ ci → ci < 3.0 → (interpret_cone_index (some ci)).1 = "High") ∧
      (0.8 ≤ ci → ci < 1.5 → (interpret_cone_index (some ci)).1 = "Moderate") ∧
      (ci < 0.8 → (interpret_cone_index (some ci)).1 = "Low") := by
  refine ⟨rfl, fun ci =>
    ⟨fun h => ?_, fun h1 h2 => ?_, fun h1 h2 => ?_, fun h => ?_⟩⟩ <;>
    simp only [interpret_cone_index] <;> split_ifs <;>
    first
      | rfl
      | (exfalso; linarith)

/-- C7 witness: the boundary value `ci = 3.0` falls in the higher category
`Very High`. -/
theorem interpret_cone_index_spec_witness :
    (interpret_cone_index (some 3.0)).1 = "Very High" :=
  (interpret_cone_index_spec.2 3.0).1 le_rfl

/-- C8: the rut-depth evaluator returns `Unknown` when the input is
absent, `High` when `rut > 10`, `Moderate` when `3 < rut ≤ 10` (so `10`
itself is `Moderate`), and `Low` when `rut ≤ 3` (so `3` itself is `Low`). -/
theorem interpret_rut_depth_spec :
    (interpret_rut_depth none).1 = "Unknown" ∧
    ∀ rut : ℚ,
      (rut > 10 → (interpret_rut_depth (some rut)).1 = "High") ∧
      (3 < rut → rut ≤ 10 → (interpret_rut_depth (some rut)).1 = "Moderate") ∧
      (rut ≤ 3 → (interpret_rut_depth (some rut)).1 = "Low") := by
  refine ⟨rfl, fun rut => ⟨fun h => ?_, fun h1 h2 => ?_, fun h => ?_⟩⟩ <;>
    simp only [interpret_rut_depth] <;> split_ifs <;>
    first
      | rfl
      | (exfalso; linarith)

/-- C8 witness: the boundary value `rut = 10` is classified `Moderate`. -/
theorem interpret_rut_depth_spec_witness :
    (interpret_rut_depth (some 10)).1 = "Moderate" :=
  (interpret_rut_depth_spec.2 10).2.1 (by norm_num) le_rfl

/-- C2: whenever a numeric SMD is present the categorical moisture input
is ignored entirely (the result does not depend on it) and the result is
`Favourable` for `smd ≥ 10`, `Marginal` for `0 ≤ smd < 10`, `Poor` for
`smd < 0`; with SMD absent, `dry`/`moderate` give `Favourable`,
`near_field_capacity`/`wet` give `Poor`, and anything else (the empty
category included) gives `Unknown`. -/
theorem interpret_moisture_spec :
    (∀ (smd : ℚ) (cat cat2 : String),
      interpret_moisture (some smd) cat = interpret_moisture (some smd) cat2 ∧
      (smd ≥ 10 → (interpret_moisture (some smd) cat).1 = "Favourable") ∧
      (0 ≤ smd → smd < 10 → (interpret_moisture (some smd) cat).1 = "Marginal") ∧
      (smd < 0 → (interpret_moisture (some smd) cat).1 = "Poor")) ∧
    (∀ cat : String,
      (cat = "dry" ∨ cat = "moderate" →
        (interpret_moisture none cat).1 = "Favourable") ∧
      (cat = "near_field_capacity" ∨ cat = "wet" →
        (interpret_moisture none cat).1 = "Poor") ∧
      (cat ≠ "dry" → cat ≠ "moderate" → cat ≠ "near_field_capacity" → cat ≠ "wet" →
        (interpret_moisture none cat).1 = "Unknown")) := by
  constructor
  · intro smd cat cat2
    refine ⟨rfl, fun h => ?_, fun h1 h2 => ?_, fun h => ?_⟩ <;>
      simp only [interpret_moisture] <;> split_ifs <;>
      first
        | rfl
        | (exfalso; linarith)
  · intro cat
    refine ⟨fun h => ?_, fun h => ?_, fun h1 h2 h3 h4 => ?_⟩
    · rcases h with rfl | rfl <;> rfl
    · rcases h with rfl | rfl <;> rfl
    · simp only [interpret_moisture]
      split_ifs <;> simp_all

/-- C2 witness: the spec's precedence example, `smd = 5` with
`moisture_cat = "wet"`, yields `Marginal` (the numeric value wins). -/
theorem interpret_moisture_spec_witness :
    (interpret_moisture (some 5) "wet").1 = "Marginal" :=
  (interpret_moisture_spec.1 5 "wet" "dry").2.2.1 (by norm_num) (by norm_num)

/-- The weight table exactly as the spec words it:
Low, Favourable, Unknown map to 0; Moderate, Marginal to 1;
High, Poor to 2; Very High to 3; anything else to 0. -/
def spec_weight (l : String) : ℕ :=
  if l = "Low" then 0
  else if l = "Favourable" then 0
  else if l = "Unknown" then 0
  else if l = "Moderate" then 1
  else if l = "Marginal" then 1
  else if l = "High" then 2
  else if l = "Poor" then 2
  else if l = "Very High" then 3
  else 0

theorem score_map_eq_spec_weight (l : String) : score_map l = spec_weight l := by
  simp only [score_map, spec_weight]
  split_ifs <;> simp_all

/-- C3: on any five labels the aggregator sums the weights of the spec's
fixed table (unmapped labels weigh 0, nothing fails) and returns `High`
for a total `≥ 5`, `Moderate` for `2 ≤ total < 5`, `Low` otherwise. -/
theorem aggregate_risk_spec (l1 l2 l3 l4 l5 : String) :
    aggregate_risk [l1, l2, l3, l4, l5] =
      (if spec_weight l1 + spec_weight l2 + spec_weight l3 + spec_weight l4 +
            spec_weight l5 ≥ 5 then "High"
       else if spec_weight l1 + spec_weight l2 + spec_weight l3 + spec_weight l4 +
            spec_weight l5 ≥ 2 then "Moderate"
       else "Low") := by
  have h : ([l1, l2, l3, l4, l5].map score_map).sum =
      spec_weight l1 + spec_weight l2 + spec_weight l3 + spec_weight l4 +
        spec_weight l5 := by
    simp [score_map_eq_spec_weight]
    ring
  simp only [aggregate_risk]
  rw [h]

theorem score_map_le_three (l : String) : score_map l ≤ 3 := by
  simp only [score_map]
  split_ifs <;> norm_num

theorem sum_le_of_filter_length_le (ws : List ℕ) (h3 : ∀ w ∈ ws, w ≤ 3)
    (h : (ws.filter fun w => w != 0).length ≤ 1) : ws.sum ≤ 3 := by
  induction ws with
  | nil => simp
  | cons w t ih =>
    by_cases hw : w = 0
    · subst hw
      have h' : (t.filter fun x => x != 0).length ≤ 1 := by simpa using h
      have := ih (fun x hx => h3 x (List.mem_cons_of_mem _ hx)) h'
      simpa using this
    · have hf : (w :: t).filter (fun x => x != 0) =
          w :: t.filter (fun x => x != 0) := by simp [hw]
      rw [hf] at h
      simp only [List.length_cons] at h
      have h0 : t.filter (fun x => x != 0) = [] :=
        List.length_eq_zero.mp (by omega)
      have ht0 : ∀ x ∈ t, x = 0 := by
        intro x hx
        by_contra hxne
        have hmem : x ∈ t.filter (fun x => x != 0) :=
          List.mem_filter.mpr ⟨hx, by simpa using hxne⟩
        simp [h0] at hmem
      have hts : t.sum = 0 := List.sum_eq_zero ht0
      have hw3 := h3 w (List.mem_cons_self _ _)
      simp [List.sum_cons, hts]
      omega

/-- C10: whenever at most one of the five labels has nonzero weight the
aggregate can never be `High` (the largest single weight, 3, is below the
threshold 5); in particular a lone `Very High` cone index among four
`Unknown` indicators yields overall `Moderate`. -/
theorem aggregate_risk_single_nonzero :
    (∀ l1 l2 l3 l4 l5 : String,
      (([l1, l2, l3, l4, l5].map score_map).filter fun w => w != 0).length ≤ 1 →
      aggregate_risk [l1, l2, l3, l4, l5] ≠ "High") ∧
    aggregate_risk ["Unknown", "Very High", "Unknown", "Unknown", "Unknown"] =
      "Moderate" := by
  constructor
  · intro l1 l2 l3 l4 l5 h
    have h3 : ∀ w ∈ [l1, l2, l3, l4, l5].map score_map, w ≤ 3 := by
      intro w hw
      simp only [List.mem_map] at hw
      obtain ⟨l, _, rfl⟩ := hw
      exact score_map_le_three l
    have hsum := sum_le_of_filter_length_le _ h3 h
    simp only [aggregate_risk]
    split_ifs with h1 h2
    · exact absurd h1 (by omega)
    · decide
    · decide
  · rfl

/-- C10 witness: a single `Very High` indicator with the other four
`Unknown` does not aggregate to `High`. -/
theorem aggregate_risk_single_nonzero_witness :
    aggregate_risk ["Unknown", "Very High", "Unknown", "Unknown", "Unknown"] ≠
      "High" :=
  aggregate_risk_single_nonzero.1 "Unknown" "Very High" "Unknown" "Unknown"
    "Unknown" (by decide)

/-- C4 counterexample: with every input absent the tire/wheel-load
evaluator returns `Low` (its no-reasons branch), not `Unknown`, refuting
the claim that every indicator evaluator returns `Unknown` in the
all-absent scenario. -/
theorem tire_and_load_absent_not_unknown :
    (interpret_tire_and_load (parse_float "") (parse_float "")).1 = "Low" ∧
    (interpret_tire_and_load (parse_float "") (parse_float "")).1 ≠ "Unknown" := by
  constructor <;> decide

/-- C4 (amended): with all six fields unparsed (empty text) and the empty
moisture category, four evaluators return `Unknown` while the tire/wheel
evaluator returns `Low`; the aggregate is `Low` and the recommendation
list is the fixed two-item Low-risk list. -/
theorem all_absent_pipeline :
    assessment_levels (parse_float "") (parse_float "") (parse_float "")
        (parse_float "") (parse_float "") (parse_float "") "" =
      ["Unknown", "Unknown", "Unknown", "Low", "Unknown"] ∧
    aggregate_risk (assessment_levels (parse_float "") (parse_float "")
        (parse_float "") (parse_float "") (parse_float "") (parse_float "") "") =
      "Low" ∧
    recommendations (aggregate_risk (assessment_levels (parse_float "")
        (parse_float "") (parse_float "") (parse_float "") (parse_float "")
        (parse_float "") "")) =
      ["Field conditions acceptable for operations; continue routine monitoring of BD and CI.",
       "Practice best traffic management to avoid long-term compaction (CTF, wide tires)."] := by
  refine ⟨by decide, by decide, by decide⟩

/-- C5: `parse_float` returns exactly the value of a successful
conversion and `none` (absent) on any conversion failure — the empty
string and non-numeric text included — and, being a total function into
`Option`, never propagates an exception to its caller. -/
theorem parse_float_spec :
    (∀ s : String,
      (∃ q, pyFloat s = Except.ok q ∧ parse_float s = some q) ∨
      (pyFloat s = Except.error () ∧ parse_float s = none)) ∧
    parse_float "" = none ∧
    parse_float "abc" = none ∧
    parse_float "7" = some ((7 : ℕ) : ℚ) := by
  refine ⟨fun s => ?_, by decide, by decide, rfl⟩
  cases h : pyFloat s with
  | ok v => exact Or.inl ⟨v, rfl, by simp [parse_float, h]⟩
  | error e =>
    cases e
    exact Or.inr ⟨rfl, by simp [parse_float, h]⟩

theorem natStr_chars {n : ℕ} {c : Char} (hc : c ∈ (natStr n).data) :
    c.isDigit = true := by
  unfold natStr at hc
  split at hc
  · rw [show ("0" : String).data = ['0'] from rfl, List.mem_singleton] at hc
    subst hc
    decide
  · rw [show (String.mk ((Nat.digits 10 n).reverse.map Nat.digitChar)).data =
        (Nat.digits 10 n).reverse.map Nat.digitChar from rfl] at hc
    simp only [List.mem_map, List.mem_reverse] at hc
    obtain ⟨d, hd, rfl⟩ := hc
    have hlt : d < 10 := Nat.digits_lt_base (by norm_num) hd
    exact (by decide : ∀ d < 10, (Nat.digitChar d).isDigit = true) d hlt

theorem fmtFixed_chars {p : ℕ} {q : ℚ} {c : Char}
    (hc : c ∈ (fmtFixed p q).data) : c = '-' ∨ c = '.' ∨ c.isDigit = true := by
  simp only [fmtFixed] at hc
  split at hc
  · rw [String.data_append] at hc
    rcases List.mem_append.mp hc with h | h
    · split at h
      · rw [show ("-" : String).data = ['-'] from rfl, List.mem_singleton] at h
        exact Or.inl h
      · rw [show ("" : String).data = [] from rfl] at h
        exact absurd h (List.not_mem_nil c)
    · exact Or.inr (Or.inr (natStr_chars h))
  · simp only [String.data_append, List.mem_append] at hc
    rcases hc with (((h | h) | h) | h) | h
    · split at h
      · rw [show ("-" : String).data = ['-'] from rfl, List.mem_singleton] at h
        exact Or.inl h
      · rw [show ("" : String).data = [] from rfl] at h
        exact absurd h (List.not_mem_nil c)
    · exact Or.inr (Or.inr (natStr_chars h))
    · rw [List.mem_singleton] at h
      exact Or.inr (Or.inl h)
    · have h0 : c = '0' := List.eq_of_mem_replicate h
      subst h0
      exact Or.inr (Or.inr (by decide))
    · exact Or.inr (Or.inr (natStr_chars h))

theorem geq_not_mem_tireReason (tp : ℚ) : '≥' ∉ (tireReasonStr tp).data := by
  intro h
  simp only [tireReasonStr, String.data_append, List.mem_append] at h
  rcases h with (h | h) | h
  · exact absurd h (by decide)
  · rcases fmtFixed_chars h with h' | h' | h' <;> exact absurd h' (by decide)
  · exact absurd h (by decide)

theorem strContains_tireReason_false (tp : ℚ) :
    strContains (tireReasonStr tp) "≥ 5000" = false := by
  unfold strContains
  simp only [decide_eq_false_iff_not]
  intro hinf
  obtain ⟨s, t, hst⟩ := hinf
  have hmem : '≥' ∈ (tireReasonStr tp).data := by
    have hin : '≥' ∈ ("≥ 5000" : String).data := by decide
    rw [← hst]
    simp only [List.mem_append]
    tauto
  exact geq_not_mem_tireReason tp hmem

theorem strContains_loadReason_true (wl : ℚ) :
    strContains (loadReasonStr wl) "≥ 5000" = true := by
  unfold strContains
  simp only [decide_eq_true_eq]
  have h : ("≥ 5000" : String).data <:+:
      (" kg ≥ 5000 kg (increases subsoil compaction risk)." : String).data := by
    decide
  obtain ⟨s, t, hst⟩ := h
  refine ⟨("Wheel load " ++ fmtFixed 0 wl).data ++ s, t, ?_⟩
  rw [show (loadReasonStr wl).data = ("Wheel load " ++ fmtFixed 0 wl).data ++
    (" kg ≥ 5000 kg (increases subsoil compaction risk)." : String).data from
    String.data_append _ _]
  rw [← hst]
  simp [List.append_assoc]

/-- C1: the joint tire-pressure/wheel-load evaluator returns `Low` when
neither reason triggers, `High` whenever the wheel-load reason triggers
(`wl` present and `≥ 5000`, regardless of the tire reason), `Moderate`
when only the tire-pressure reason triggers (`tp` present and `> 50`, for
every such `tp`, values rendering as `5000` included — the tire reason
string never contains the marker `≥ 5000`), and the explanation of a
triggered result is the space-separated concatenation of the triggered
reason strings. -/
theorem interpret_tire_and_load_spec (tp wl : Option ℚ) :
    ((∀ t ∈ tp, t ≤ 50) → (∀ w ∈ wl, w < 5000) →
      interpret_tire_and_load tp wl =
        ("Low", "Tire pressure and wheel load within low-risk bounds.")) ∧
    (∀ w ∈ wl, 5000 ≤ w → (interpret_tire_and_load tp wl).1 = "High") ∧
    ((∃ t ∈ tp, 50 < t) → (∀ w ∈ wl, w < 5000) →
      (interpret_tire_and_load tp wl).1 = "Moderate") ∧
    (tire_reasons tp wl ≠ [] →
      (interpret_tire_and_load tp wl).2 = String.intercalate " " (tire_reasons tp wl)) := by
  refine ⟨fun h1 h2 => ?_, fun w hw h5 => ?_, fun h1 h2 => ?_, fun hne => ?_⟩
  · have hr : tire_reasons tp wl = [] := by
      unfold tire_reasons
      rcases tp with _ | t <;> rcases wl with _ | w
      · rfl
      · simp [not_le.mpr (h2 w rfl)]
      · simp [not_lt.mpr (h1 t rfl)]
      · simp [not_lt.mpr (h1 t rfl), not_le.mpr (h2 w rfl)]
    simp [interpret_tire_and_load, hr]
  · rw [Option.mem_def] at hw
    subst hw
    have hmem : loadReasonStr w ∈ tire_reasons tp (some w) := by
      unfold tire_reasons
      rcases tp with _ | t
      · simp [h5]
      · by_cases h : (50 : ℚ) < t <;> simp [h5, h]
    have hany : (tire_reasons tp (some w)).any
        (fun r => strContains r "≥ 5000") = true :=
      List.any_eq_true.mpr ⟨loadReasonStr w, hmem, strContains_loadReason_true w⟩
    simp only [interpret_tire_and_load]
    rw [if_neg (List.ne_nil_of_mem hmem), if_pos hany]
  · obtain ⟨t, htm, ht⟩ := h1
    rw [Option.mem_def] at htm
    subst htm
    have hr : tire_reasons (some t) wl = [tireReasonStr t] := by
      unfold tire_reasons
      rcases wl with _ | w
      · simp [ht]
      · simp [ht, not_le.mpr (h2 w rfl)]
    simp only [interpret_tire_and_load, hr]
    rw [if_neg (List.cons_ne_nil _ _)]
    simp [strContains_tireReason_false t]
  · simp only [interpret_tire_and_load]
    rw [if_neg hne]
    split_ifs <;> rfl

/-- C1 witness: with `tp = 60` and `wl = 6000` both reasons trigger and
the wheel load dominates, giving `High`. -/
theorem interpret_tire_and_load_spec_witness :
    (interpret_tire_and_load (some 60) (some 6000)).1 = "High" :=
  (interpret_tire_and_load_spec (some 60) (some 6000)).2.1 6000 rfl (by norm_num)

/-- C9 counterexample: `ci` is not a substring of `critical` (nor of the
lower-cased query `what bd is critical?`), refuting the claim's assertion
that the cone-index keyword `ci` occurs as a substring of `critical`. -/
theorem ci_not_substring_of_critical :
    strContains "critical" "ci" = false ∧
    strContains (pyLower "What BD is critical?") "ci" = false := by
  constructor <;> decide

/-- C9 (amended): the Q&A lookup agrees everywhere with the spec's
ordered first-match table, and `What BD is critical?` matches the
bulk-density branch via its keyword `bd` (the cone-index keyword `ci`
does not even occur in the lower-cased query, so the priority order is
unchallenged there). -/
theorem qa_answer_spec :
    (∀ query : String, qa_answer query = qa_spec query) ∧
    qa_answer "What BD is critical?" = qaBulkDensity ∧
    strContains (pyLower "What BD is critical?") "bd" = true ∧
    qaBulkDensity ≠ qaConeIndex := by
  refine ⟨fun query => ?_, by decide, by decide, by decide⟩
  simp only [qa_answer, qa_spec, qaTable]
  by_cases h1 : strContains (pyLower query) "trafficability" = true <;>
    by_cases h2 : strContains (pyLower query) "compaction" = true <;>
    by_cases h3 : strContains (pyLower query) "bulk density" = true <;>
    by_cases h3b : strContains (pyLower query) "bd" = true <;>
    by_cases h4 : strContains (pyLower query) "cone index" = true <;>
    by_cases h4b : strContains (pyLower query) "ci" = true <;>
    by_cases h5 : strContains (pyLower query) "smd" = true <;>
    by_cases h5b : strContains (pyLower query) "soil moisture deficit" = true <;>
    simp [List.find?, List.any, h1, h2, h3, h3b, h4, h4b, h5, h5b]
